import Mathlib

/-!
# Model of the tortus annotation widget core (src/tortus/tortus.py)

Shallow embedding of the record-selection / resume / annotation-recording
logic of the Python `Tortus` class.  Pandas dataframes are modelled as Lean
lists; a row of the annotations dataframe carries its pandas integer row
label (`AnnotRow.name`, the value the source reads as `row_annot.name` and
writes through `annotations.loc[idx]`).  Timestamps (`datetime.now()`) are
passed in as a `Nat` parameter.

Naming: the Python attribute `annotations` is rendered as `annots` and the
counter `annotation_index` as `annot_index` (the Lean names avoid clashes
with reserved words); all other names follow the source.  The UI widget
members and the pluggable `get_html` renderer are omitted: they do not touch
the session state the claims are about.
-/

/-- Errors raised by the Python runtime / pandas on the modelled code paths.
`keyError`: column lookup failure (`annotations[None]` when no id column is
configured); `indexError`: out-of-range scalar `iloc` / list index;
`valueError`: `DataFrame.sample(n)` with `n` larger than the population.
`configError` is never raised anywhere in the source; it is the name the
spec gives to a validated configuration failure and is included only so the
distinction can be stated. -/
inductive PdError where
  | keyError
  | indexError
  | valueError
  | configError
deriving DecidableEq

/-- One row of the source dataframe `df`: its index label, the value of the
id column (read only when an id column is configured) and the text column. -/
structure SrcRow where
  index : Int
  idVal : Int
  text : String
deriving DecidableEq

/-- One output row: the four columns the source writes through
`annotations.loc[idx] = [record_id, text, label, annotated_at]`. -/
structure AnnotEntry where
  record_id : Int
  text : String
  label : Option String
  annotated_at : Nat
deriving DecidableEq

/-- A row of the annotations dataframe: its pandas row label (`.name`)
together with the column values. -/
structure AnnotRow where
  name : Nat
  entry : AnnotEntry
deriving DecidableEq

/-- The annotations dataframe, in row order. -/
abbrev AnnotTable := List AnnotRow

/-- Python `str.lower()`, modelled characterwise (faithful on the ASCII
button descriptions the widget produces). -/
def pyLower (s : String) : String := ⟨s.data.map Char.toLower⟩

/-- Scalar `.iloc[i]` of pandas, which is also Python list indexing:
nonnegative positions count from the front, negative positions from the
back, anything else raises IndexError. -/
def ilocGet {α : Type} (xs : List α) (i : Int) : Except PdError α :=
  if h : 0 ≤ i ∧ i < (xs.length : Int) then
    Except.ok (xs.get ⟨i.toNat, by omega⟩)
  else if h2 : -(xs.length : Int) ≤ i ∧ i < 0 then
    Except.ok (xs.get ⟨((xs.length : Int) + i).toNat, by omega⟩)
  else Except.error PdError.indexError

/-- `annotations.loc[idx] = row`: overwrite every row whose label equals
`idx`, or append a new row labelled `idx` when none matches. -/
def locSet (tbl : AnnotTable) (idx : Nat) (e : AnnotEntry) : AnnotTable :=
  if tbl.any (fun r => r.name == idx) then
    tbl.map (fun r => if r.name == idx then ⟨r.name, e⟩ else r)
  else tbl ++ [⟨idx, e⟩]

/-- Session state: the data fields of the Python `Tortus` object, plus
`annot_index` (the source counter `annotation_index`, an `Int` because the
source manipulates a Python integer) and `doneMsg` (the terminal screen
shown by the else-branch of `move_clicked`: the progress-bar description,
`Complete` or `Start`, displayed after the input widgets are torn down;
`none` while the widget is still annotating). -/
structure Tortus where
  df : List SrcRow
  num_records : Nat
  id_column : Option String
  annots : AnnotTable
  edit_annots : Bool
  random : Bool
  labels : List String
  display_confirm : Bool
  subset_df : List SrcRow
  annot_index : Int
  doneMsg : Option String
deriving DecidableEq

/-- The constructor default `labels=['Positve', 'Negative', 'Neutral']`
(the first entry is misspelled exactly as in the source). -/
def default_labels : List String := [("Positve"), ("Negative"), ("Neutral")]

/-- `Tortus.create_subset_df`.  The source computes the boolean membership
of each source text in the prior annotations' text column, negates it
outside edit mode, filters, and then either randomly samples or slices the
first `num_records` rows.  `sample(n)` draws `n` distinct rows and raises
ValueError when `n` exceeds the population; since no claim depends on which
rows the random sample picks, the model returns the canonical selection of
the first `n` rows in that branch while modelling the error condition
exactly. -/
def create_subset_df (annots : AnnotTable) (df : List SrcRow)
    (edit_annots : Bool) (rand : Bool) (num_records : Nat) :
    Except PdError (List SrcRow) :=
  let subset :=
    if annots.isEmpty then df
    else
      let already := annots.map (fun r => r.entry.text)
      if !edit_annots then df.filter (fun row => !(already.contains row.text))
      else df.filter (fun row => already.contains row.text)
  if rand then
    if num_records ≤ subset.length then Except.ok (subset.take num_records)
    else Except.error PdError.valueError
  else Except.ok (subset.take num_records)

/-- `Tortus.__init__`: a missing prior table becomes the empty table with
the output columns, a supplied one is copied; `random` is forced off under
edit mode; `create_subset_df` runs last.  `annotation_index` starts at 0. -/
def Tortus.init (df : List SrcRow) (num_records : Nat)
    (id_column : Option String) (annots0 : Option AnnotTable)
    (edit_annots : Bool) (rand : Bool) (labels : List String)
    (display_confirm : Bool) : Except PdError Tortus :=
  let annots := annots0.getD []
  let rand2 := if edit_annots then false else rand
  match create_subset_df annots df edit_annots rand2 num_records with
  | Except.error e => Except.error e
  | Except.ok subset =>
      Except.ok { df := df, num_records := num_records, id_column := id_column,
                  annots := annots, edit_annots := edit_annots, random := rand2,
                  labels := labels, display_confirm := display_confirm,
                  subset_df := subset, annot_index := 0, doneMsg := none }

/-- `Tortus.create_record_id`: the subset's index labels when no id column
is configured, else the subset's id-column values. -/
def Tortus.create_record_id (t : Tortus) : List Int :=
  match t.id_column with
  | none => t.subset_df.map (fun r => r.index)
  | some _ => t.subset_df.map (fun r => r.idVal)

/-- `Tortus.get_annotation_row_from_subset_iloc`: looks up the current
subset row, then filters the annotations by id-column equality and returns
the first match (a pandas row keeping its `.name`), else `None`.  With
`id_column = None` the source evaluates `self.annotations[None]` and
`cur_row[None]`: neither frame has a column labelled `None` (the
default-built table names its id column by the *string* `'id_column'`), so
pandas raises KeyError. -/
def Tortus.get_annot_row_from_subset_iloc (t : Tortus) (subset_iloc : Int) :
    Except PdError (Option AnnotRow) :=
  match ilocGet t.subset_df subset_iloc with
  | Except.error e => Except.error e
  | Except.ok cur_row =>
    match t.id_column with
    | none => Except.error PdError.keyError
    | some _ =>
        Except.ok ((t.annots.filter
          (fun r => r.entry.record_id == cur_row.idVal)).head?)

/-- `label_or_skip_buttons_clicked` (table effect): choose the target row
label — the matching prior row's `.name`, else `len(annotations)` — and the
label value — preserved on skip over a prior row, `None` on skip with no
prior row, else the lowercased button description — then write the full row
`[record_id[i], subset_text[i], lbl, now]` through `.loc`.  The UI effects
(button colours, disabling) are not modelled; the confirm-off auto-advance
lives in `label_or_skip_full`. -/
def Tortus.label_or_skip_buttons_clicked (t : Tortus)
    (button_description : String) (skip : Bool) (now : Nat) :
    Except PdError Tortus :=
  let record_id := t.create_record_id
  match t.get_annot_row_from_subset_iloc t.annot_index with
  | Except.error e => Except.error e
  | Except.ok row_annot =>
    let new_button_label := pyLower button_description
    let idx : Nat := match row_annot with
      | some ra => ra.name
      | none => t.annots.length
    let lbl : Option String := match row_annot with
      | some ra => if skip then ra.entry.label else some new_button_label
      | none => if skip then none else some new_button_label
    match ilocGet record_id t.annot_index, ilocGet t.subset_df t.annot_index with
    | Except.ok rid, Except.ok cur =>
        Except.ok { t with annots := locSet t.annots idx ⟨rid, cur.text, lbl, now⟩ }
    | Except.error e, _ => Except.error e
    | Except.ok _, Except.error e => Except.error e

/-- `move_clicked(delta)`: no-op for Prev at position 0; while the position
is strictly before the last subset row the counter moves by `delta` and the
widget re-renders; otherwise the widget tears the inputs down and shows the
terminal progress description, `Complete` for `delta = 1` and `Start`
otherwise. -/
def Tortus.move_clicked (t : Tortus) (delta : Int) : Tortus :=
  if delta = -1 ∧ t.annot_index = 0 then t
  else if t.annot_index < (t.subset_df.length : Int) - 1 then
    { t with annot_index := t.annot_index + delta }
  else
    { t with doneMsg := some (if delta = 1 then ("Complete") else ("Start")) }

/-- A label or skip click as dispatched by the widget: the table write,
followed by `confirm_button_clicked(None)` — that is, `move_clicked(1)` —
whenever confirmation mode is off. -/
def Tortus.label_or_skip_full (t : Tortus) (button_description : String)
    (skip : Bool) (now : Nat) : Except PdError Tortus :=
  match t.label_or_skip_buttons_clicked button_description skip now with
  | Except.error e => Except.error e
  | Except.ok t1 =>
      if t.display_confirm then Except.ok t1
      else Except.ok (t1.move_clicked 1)

/-- `redo_button_clicked`: `annotations = annotations.head(-1)`, i.e. drop
the last row (a no-op on an empty table); the position is untouched. -/
def Tortus.redo_button_clicked (t : Tortus) : Tortus :=
  { t with annots := t.annots.dropLast }

/-- One user interaction, as wired to the widget buttons.  The skip button's
description is the literal `Skip`. -/
inductive Event where
  | labelClick (desc : String) (now : Nat)
  | skipClick (now : Nat)
  | confirmClick
  | prevClick
  | redoClick
deriving DecidableEq

/-- Dispatch of one event to the corresponding source callback. -/
def Tortus.step (t : Tortus) : Event → Except PdError Tortus
  | Event.labelClick desc now => t.label_or_skip_full desc false now
  | Event.skipClick now => t.label_or_skip_full ("Skip") true now
  | Event.confirmClick => Except.ok (t.move_clicked 1)
  | Event.prevClick => Except.ok (t.move_clicked (-1))
  | Event.redoClick => Except.ok t.redo_button_clicked

/-- A sequence of interactions; an exception aborts the run. -/
def Tortus.steps (t : Tortus) : List Event → Except PdError Tortus
  | [] => Except.ok t
  | e :: es =>
    match t.step e with
    | Except.error err => Except.error err
    | Except.ok t2 => t2.steps es

/-- The button descriptions the widget offers as label choices: `annotate`
builds exactly one label button per configured label (skip, confirm, prev
and redo are separate, non-label buttons). -/
def Tortus.offered_label_descriptions (t : Tortus) : List String := t.labels

/-- Modelled from the spec: the rows eligible for the working subset — the
full source table when the prior table is empty, else outside edit mode the
source rows whose text is not in the prior table's text column, and in edit
mode exactly those whose text is in it. -/
def specEligible (annots : AnnotTable) (df : List SrcRow)
    (edit_annots : Bool) : List SrcRow :=
  if annots.isEmpty then df
  else
    let already := annots.map (fun r => r.entry.text)
    if !edit_annots then df.filter (fun row => !(already.contains row.text))
    else df.filter (fun row => already.contains row.text)

/-- Position invariant: the subset is fixed and the counter stays inside
`[0, len)` when the subset is nonempty, and stays at its initial 0 when the
subset is empty. -/
def PosInv (S : List SrcRow) (t : Tortus) : Prop :=
  t.subset_df = S ∧
  (S ≠ [] → 0 ≤ t.annot_index ∧ t.annot_index < (S.length : Int)) ∧
  (S = [] → t.annot_index = 0)

/-! Concrete sessions used by witnesses and counterexamples. -/

/-- A default-configuration session (`id_column = None`): the value of
`Tortus.init [⟨0, 7, "hello"⟩] 10 none none false false default_labels false`. -/
def t6 : Tortus :=
  { df := [⟨0, 7, ("hello")⟩], num_records := 10, id_column := none, annots := [],
    edit_annots := false, random := false, labels := default_labels,
    display_confirm := false, subset_df := [⟨0, 7, ("hello")⟩],
    annot_index := 0, doneMsg := none }

/-- A one-record session with a configured id column and no prior
annotations, used to instantiate the write theorems. -/
def w1 : Tortus :=
  { df := [⟨0, 3, ("t")⟩], num_records := 10, id_column := some ("id"), annots := [],
    edit_annots := false, random := false, labels := default_labels,
    display_confirm := true, subset_df := [⟨0, 3, ("t")⟩],
    annot_index := 0, doneMsg := none }

/-- `w1` after a `Positve`-button write at time 7. -/
def w1after : Tortus := { w1 with annots := [⟨0, ⟨3, ("t"), some ("positve"), 7⟩⟩] }

/-- A one-record edit-mode session whose record already has a prior
`negative` entry. -/
def w3 : Tortus :=
  { df := [⟨0, 4, ("u")⟩], num_records := 10, id_column := some ("id"),
    annots := [⟨0, ⟨4, ("u"), some ("negative"), 2⟩⟩], edit_annots := true,
    random := false, labels := default_labels, display_confirm := true,
    subset_df := [⟨0, 4, ("u")⟩], annot_index := 0, doneMsg := none }

/-- A source table with a duplicated id value (id 1) carried by two rows
with different texts. -/
def c1df : List SrcRow := [⟨0, 1, ("a")⟩, ⟨1, 1, ("b")⟩]

/-- The session built over `c1df` (confirmation off, so a label click
auto-advances). -/
def c1s0 : Tortus :=
  { df := c1df, num_records := 10, id_column := some ("id"), annots := [],
    edit_annots := false, random := false, labels := default_labels,
    display_confirm := false, subset_df := c1df, annot_index := 0, doneMsg := none }

/-- `c1s0` after clicking `Positive` at position 0 (write plus auto-advance). -/
def c1s1 : Tortus :=
  { c1s0 with annots := [⟨0, ⟨1, ("a"), some ("positive"), 1⟩⟩], annot_index := 1 }

/-- `c1s1` after clicking `Negative` at position 1: the id-keyed lookup hits
the row written for position 0 and the whole row — its text included — is
overwritten. -/
def c1s2 : Tortus := { c1s1 with annots := [⟨0, ⟨1, ("b"), some ("negative"), 2⟩⟩] }

/-- A second duplicated-id table (id 5) for the skip scenario. -/
def c3df : List SrcRow := [⟨0, 5, ("x")⟩, ⟨1, 5, ("y")⟩]

/-- The session built over `c3df`. -/
def c3s0 : Tortus :=
  { df := c3df, num_records := 10, id_column := some ("id"), annots := [],
    edit_annots := false, random := false, labels := default_labels,
    display_confirm := false, subset_df := c3df, annot_index := 0, doneMsg := none }

/-- `c3s0` after clicking `Negative` at position 0. -/
def c3s1 : Tortus :=
  { c3s0 with annots := [⟨0, ⟨5, ("x"), some ("negative"), 3⟩⟩], annot_index := 1 }

/-- `c3s1` after clicking skip at position 1: the prior label survives but
the matched row's text is rewritten. -/
def c3s2 : Tortus := { c3s1 with annots := [⟨0, ⟨5, ("y"), some ("negative"), 4⟩⟩] }

/-- An edit-mode session whose prior table has two rows; the current record
matches the first row, not the last. -/
def c4s0 : Tortus :=
  { df := [⟨0, 1, ("a")⟩], num_records := 10, id_column := some ("id"),
    annots := [⟨0, ⟨1, ("a"), some ("positive"), 0⟩⟩,
               ⟨1, ⟨2, ("zz"), some ("negative"), 0⟩⟩],
    edit_annots := true, random := false, labels := default_labels,
    display_confirm := true, subset_df := [⟨0, 1, ("a")⟩],
    annot_index := 0, doneMsg := none }

/-- `c4s0` after a `Neutral` write at time 9: an in-place update of row 0. -/
def c4s1 : Tortus :=
  { c4s0 with annots := [⟨0, ⟨1, ("a"), some ("neutral"), 9⟩⟩,
                         ⟨1, ⟨2, ("zz"), some ("negative"), 0⟩⟩] }

/-- A two-record session sitting at its last position (index 1). -/
def c5s0 : Tortus :=
  { df := [⟨0, 1, ("p")⟩, ⟨1, 2, ("q")⟩], num_records := 10,
    id_column := some ("id"), annots := [], edit_annots := false,
    random := false, labels := default_labels, display_confirm := true,
    subset_df := [⟨0, 1, ("p")⟩, ⟨1, 2, ("q")⟩], annot_index := 0, doneMsg := none }

/-- `c5s0` advanced once, now at the last position. -/
def c5s1 : Tortus := { c5s0 with annot_index := 1 }

/-- A one-record session used for the write-after-Complete scenario. -/
def c7s0 : Tortus :=
  { df := [⟨0, 9, ("zz")⟩], num_records := 10, id_column := some ("id"),
    annots := [], edit_annots := false, random := false,
    labels := default_labels, display_confirm := true,
    subset_df := [⟨0, 9, ("zz")⟩], annot_index := 0, doneMsg := none }

/-- A one-record session used for the unvalidated-label scenario. -/
def c8s0 : Tortus :=
  { df := [⟨0, 2, ("w")⟩], num_records := 10, id_column := some ("id"),
    annots := [], edit_annots := false, random := false,
    labels := default_labels, display_confirm := true,
    subset_df := [⟨0, 2, ("w")⟩], annot_index := 0, doneMsg := none }

/-- The constructible session whose working subset is empty. -/
def c10empty : Tortus :=
  { df := [], num_records := 10, id_column := none, annots := [],
    edit_annots := false, random := false, labels := default_labels,
    display_confirm := false, subset_df := [], annot_index := 0, doneMsg := none }

/-- A three-record source table. -/
def c10df : List SrcRow := [⟨0, 1, ("p")⟩, ⟨1, 2, ("q")⟩, ⟨2, 3, ("r")⟩]

/-- The session built over `c10df` with all three records cued. -/
def c10t : Tortus :=
  { df := c10df, num_records := 3, id_column := none, annots := [],
    edit_annots := false, random := false, labels := default_labels,
    display_confirm := false, subset_df := c10df, annot_index := 0, doneMsg := none }

/-- A one-entry prior table whose text column is `p`. -/
def c2annots : AnnotTable := [⟨0, ⟨0, ("p"), some ("positive"), 0⟩⟩]

/-- A three-row source table whose first text matches `c2annots`. -/
def c2df : List SrcRow := [⟨0, 1, ("p")⟩, ⟨1, 2, ("q")⟩, ⟨2, 3, ("r")⟩]

-- ### Helper lemmas ###

theorem ilocGet_nonneg {α : Type} (xs : List α) (i : Int) (h0 : 0 ≤ i)
    (hl : i < (xs.length : Int)) :
    ilocGet xs i = Except.ok (xs.get ⟨i.toNat, by omega⟩) := by
  unfold ilocGet
  rw [dif_pos ⟨h0, hl⟩]

theorem ilocGet_map {α β : Type} (f : α → β) (xs : List α) (i : Int) :
    ilocGet (xs.map f) i = (ilocGet xs i).map f := by
  unfold ilocGet
  simp only [List.length_map]
  split
  · simp [List.get_eq_getElem, List.getElem_map, Except.map]
  · split
    · simp [List.get_eq_getElem, List.getElem_map, Except.map]
    · simp [Except.map]

theorem names_lt {tbl : AnnotTable}
    (hwf : tbl.map AnnotRow.name = List.range tbl.length) :
    ∀ r ∈ tbl, r.name < tbl.length := by
  intro r hr
  have h1 : r.name ∈ tbl.map AnnotRow.name := List.mem_map_of_mem _ hr
  rw [hwf] at h1
  exact List.mem_range.mp h1

theorem name_get {tbl : AnnotTable}
    (hwf : tbl.map AnnotRow.name = List.range tbl.length)
    (j : Nat) (hj : j < tbl.length) :
    (tbl.get ⟨j, hj⟩).name = j := by
  have h1 : (tbl.map AnnotRow.name).get ⟨j, by simpa using hj⟩ =
      (List.range tbl.length).get ⟨j, by simpa using hj⟩ := by
    exact List.get_of_eq hwf _
  simpa [List.get_eq_getElem, List.getElem_map, List.getElem_range] using h1

theorem locSet_append {tbl : AnnotTable} {idx : Nat} (e : AnnotEntry)
    (h : ∀ r ∈ tbl, r.name ≠ idx) :
    locSet tbl idx e = tbl ++ [⟨idx, e⟩] := by
  unfold locSet
  rw [if_neg]
  intro hc
  obtain ⟨r, hr, hb⟩ := List.any_eq_true.mp hc
  exact h r hr (by simpa using hb)

theorem locSet_set {tbl : AnnotTable}
    (hwf : tbl.map AnnotRow.name = List.range tbl.length)
    {k : Nat} (hk : k < tbl.length) (e : AnnotEntry) :
    locSet tbl k e = tbl.set k ⟨k, e⟩ := by
  unfold locSet
  rw [if_pos]
  · apply List.ext_getElem
    · simp
    · intro j hj1 hj2
      have hj : j < tbl.length := by simpa using hj1
      have hnj : tbl[j].name = j := by
        have h2 := name_get hwf j hj
        simpa [List.get_eq_getElem] using h2
      simp only [List.getElem_map, List.getElem_set]
      by_cases hjk : j = k
      · subst hjk
        simp [hnj]
      · simp [hnj, hjk, Ne.symm hjk]
  · refine List.any_eq_true.mpr ⟨tbl.get ⟨k, hk⟩, List.get_mem tbl k hk, ?_⟩
    have h2 := name_get hwf k hk
    simpa [List.get_eq_getElem] using h2


/-- Characterization of the table write of `label_or_skip_buttons_clicked`
for a session with a configured id column whose annotation table carries the
default positional row labels 0..n-1: record-id lookup yields the current
row's id value, the prior-row lookup is the first record-id match, and the
write either appends one row labelled `len` (no prior match) or overwrites
the matching row in place, keyed by its label, which equals its position. -/
theorem write_spec (t : Tortus) (c desc : String) (skip : Bool) (now : Nat)
    (cur : SrcRow)
    (hid : t.id_column = some c)
    (hwf : t.annots.map AnnotRow.name = List.range t.annots.length)
    (hcur : ilocGet t.subset_df t.annot_index = Except.ok cur) :
    ilocGet t.create_record_id t.annot_index = Except.ok cur.idVal ∧
    t.get_annot_row_from_subset_iloc t.annot_index =
      Except.ok ((t.annots.filter (fun r => r.entry.record_id == cur.idVal)).head?) ∧
    ((t.annots.filter (fun r => r.entry.record_id == cur.idVal)).head? = none →
      t.label_or_skip_buttons_clicked desc skip now = Except.ok
        { t with annots := t.annots ++
            [⟨t.annots.length,
              ⟨cur.idVal, cur.text, (if skip then none else some (pyLower desc)), now⟩⟩] }) ∧
    (∀ ra, (t.annots.filter (fun r => r.entry.record_id == cur.idVal)).head? = some ra →
      ra.entry.record_id = cur.idVal ∧ ra.name < t.annots.length ∧
      t.label_or_skip_buttons_clicked desc skip now = Except.ok
        { t with annots := t.annots.set ra.name ⟨ra.name,
            ⟨cur.idVal, cur.text,
              (if skip then ra.entry.label else some (pyLower desc)), now⟩⟩ }) := by
  have hrec : t.create_record_id = t.subset_df.map (fun r => r.idVal) := by
    unfold Tortus.create_record_id
    rw [hid]
  have hrid : ilocGet t.create_record_id t.annot_index = Except.ok cur.idVal := by
    rw [hrec, ilocGet_map, hcur]
    rfl
  have hlook : t.get_annot_row_from_subset_iloc t.annot_index =
      Except.ok ((t.annots.filter (fun r => r.entry.record_id == cur.idVal)).head?) := by
    unfold Tortus.get_annot_row_from_subset_iloc
    rw [hcur, hid]
  refine ⟨hrid, hlook, ?_, ?_⟩
  · intro hnone
    simp only [Tortus.label_or_skip_buttons_clicked, hlook, hnone, hrid, hcur]
    rw [locSet_append]
    intro r hr
    exact Nat.ne_of_lt (names_lt hwf r hr)
  · intro ra hsome
    have hmem : ra ∈ t.annots.filter (fun r => r.entry.record_id == cur.idVal) :=
      List.mem_of_mem_head? (by simp [hsome])
    obtain ⟨hmem2, hpred⟩ := List.mem_filter.mp hmem
    have hrid_eq : ra.entry.record_id = cur.idVal := by simpa using hpred
    have hlt : ra.name < t.annots.length := names_lt hwf ra hmem2
    refine ⟨hrid_eq, hlt, ?_⟩
    simp only [Tortus.label_or_skip_buttons_clicked, hlook, hsome, hrid, hcur]
    rw [locSet_set hwf hlt]


/-- A successful table write changes only the `annots` field. -/
theorem write_shape (t : Tortus) (desc : String) (skip : Bool) (now : Nat)
    (t2 : Tortus)
    (h : t.label_or_skip_buttons_clicked desc skip now = Except.ok t2) :
    ∃ tbl, t2 = { t with annots := tbl } := by
  simp only [Tortus.label_or_skip_buttons_clicked] at h
  rcases hA : t.get_annot_row_from_subset_iloc t.annot_index with e | ro
  · rw [hA] at h
    cases h
  · rw [hA] at h
    rcases hB : ilocGet t.create_record_id t.annot_index with e | rid
    · rw [hB] at h
      cases h
    · rw [hB] at h
      rcases hC : ilocGet t.subset_df t.annot_index with e | cur
      · rw [hC] at h
        cases h
      · rw [hC] at h
        simp only [Except.ok.injEq] at h
        exact ⟨_, h.symm⟩

/-- `move_clicked` preserves the position invariant. -/
theorem move_posInv (S : List SrcRow) (t : Tortus) (hinv : PosInv S t)
    (delta : Int) (hd : delta = 1 ∨ delta = -1) :
    PosInv S (t.move_clicked delta) := by
  obtain ⟨hS, hne, hemp⟩ := hinv
  subst hS
  unfold Tortus.move_clicked
  split
  · exact ⟨rfl, hne, hemp⟩
  · rename_i hg
    split
    · rename_i hlt
      by_cases hSe : t.subset_df = []
      · exfalso
        have h0 := hemp hSe
        rw [hSe] at hlt
        simp at hlt
        omega
      · obtain ⟨h0, h1⟩ := hne hSe
        refine ⟨rfl, fun _ => ?_, fun hSe2 => absurd hSe2 hSe⟩
        show 0 ≤ t.annot_index + delta ∧
          t.annot_index + delta < (t.subset_df.length : Int)
        have hnz : ¬ (delta = -1 ∧ t.annot_index = 0) := hg
        rcases hd with h | h <;> subst h
        · constructor <;> omega
        · have : ¬ t.annot_index = 0 := fun h2 => hnz ⟨rfl, h2⟩
          constructor <;> omega
    · exact ⟨rfl, hne, hemp⟩

/-- A full label/skip click (write plus possible auto-advance) preserves the
position invariant. -/
theorem write_full_posInv (S : List SrcRow) (t : Tortus) (hinv : PosInv S t)
    (desc : String) (skip : Bool) (now : Nat) (t2 : Tortus)
    (h : t.label_or_skip_full desc skip now = Except.ok t2) : PosInv S t2 := by
  rcases hw : t.label_or_skip_buttons_clicked desc skip now with e | t1
  · simp only [Tortus.label_or_skip_full, hw] at h
    cases h
  · obtain ⟨tbl, rfl⟩ := write_shape t desc skip now t1 hw
    have hinv1 : PosInv S { t with annots := tbl } :=
      ⟨hinv.1, hinv.2.1, hinv.2.2⟩
    rcases hdc : t.display_confirm
    · simp only [Tortus.label_or_skip_full, hw] at h
      rw [if_neg (by simp [hdc])] at h
      simp only [Except.ok.injEq] at h
      rw [← h]
      exact move_posInv S _ hinv1 1 (Or.inl rfl)
    · simp only [Tortus.label_or_skip_full, hw] at h
      rw [if_pos hdc] at h
      simp only [Except.ok.injEq] at h
      rw [← h]
      exact hinv1

/-- Every event dispatch preserves the position invariant. -/
theorem step_posInv (S : List SrcRow) (t : Tortus) (hinv : PosInv S t)
    (e : Event) (t2 : Tortus) (h : t.step e = Except.ok t2) : PosInv S t2 := by
  cases e with
  | labelClick desc now => exact write_full_posInv S t hinv desc false now t2 h
  | skipClick now => exact write_full_posInv S t hinv ("Skip") true now t2 h
  | confirmClick =>
    simp only [Tortus.step, Except.ok.injEq] at h
    rw [← h]
    exact move_posInv S t hinv 1 (Or.inl rfl)
  | prevClick =>
    simp only [Tortus.step, Except.ok.injEq] at h
    rw [← h]
    exact move_posInv S t hinv (-1) (Or.inr rfl)
  | redoClick =>
    simp only [Tortus.step, Except.ok.injEq] at h
    rw [← h]
    exact ⟨hinv.1, hinv.2.1, hinv.2.2⟩

/-- Event sequences preserve the position invariant. -/
theorem steps_posInv (S : List SrcRow) (evs : List Event) :
    ∀ t : Tortus, PosInv S t → ∀ t2, t.steps evs = Except.ok t2 → PosInv S t2 := by
  induction evs with
  | nil =>
    intro t hinv t2 h
    simp only [Tortus.steps, Except.ok.injEq] at h
    rw [← h]
    exact hinv
  | cons e es ih =>
    intro t hinv t2 h
    simp only [Tortus.steps] at h
    rcases hs : t.step e with err | t1
    · rw [hs] at h
      cases h
    · rw [hs] at h
      exact ih t1 (step_posInv S t hinv e t1 hs) t2 h

/-- A freshly constructed session starts at position 0 and satisfies the
position invariant. -/
theorem init_posInv (df : List SrcRow) (n : Nat) (idc : Option String)
    (a0 : Option AnnotTable) (ed rd dc : Bool) (lbls : List String)
    (t0 : Tortus) (h : Tortus.init df n idc a0 ed rd lbls dc = Except.ok t0) :
    t0.annot_index = 0 ∧ PosInv t0.subset_df t0 := by
  simp only [Tortus.init] at h
  rcases hc : create_subset_df (a0.getD []) df ed (if ed then false else rd) n
    with e | subset
  · rw [hc] at h
    cases h
  · rw [hc] at h
    simp only [Except.ok.injEq] at h
    rw [← h]
    refine ⟨rfl, rfl, fun hne => ?_, fun he => rfl⟩
    show (0 : Int) ≤ 0 ∧ (0 : Int) < (subset.length : Int)
    have hpos : 0 < subset.length := List.length_pos.mpr hne
    omega


/-- If the annotation rows carry the positional labels 0..n-1, the element
sitting at a row's own label is that row. -/
theorem get_name_self {tbl : AnnotTable}
    (hwf : tbl.map AnnotRow.name = List.range tbl.length)
    {ra : AnnotRow} (hra : ra ∈ tbl) (h : ra.name < tbl.length) :
    tbl.get ⟨ra.name, h⟩ = ra := by
  obtain ⟨j, hjlt, hj⟩ := List.mem_iff_getElem.mp hra
  have hn := name_get hwf j hjlt
  simp only [List.get_eq_getElem] at hn ⊢
  rw [hj] at hn
  subst hn
  exact hj

/-- Overwriting the row at its own label with an entry carrying the same
label value leaves the label column of the table unchanged. -/
theorem set_same_label_map {tbl : AnnotTable}
    (hwf : tbl.map AnnotRow.name = List.range tbl.length)
    {ra : AnnotRow} (hra : ra ∈ tbl) (h : ra.name < tbl.length)
    (e : AnnotEntry) (he : e.label = ra.entry.label) :
    (tbl.set ra.name ⟨ra.name, e⟩).map (fun r => r.entry.label) =
      tbl.map (fun r => r.entry.label) := by
  apply List.ext_getElem
  · simp
  · intro j hj1 hj2
    have hj : j < tbl.length := by simpa using hj2
    simp only [List.getElem_map, List.getElem_set]
    by_cases hjk : ra.name = j
    · subst hjk
      have := get_name_self hwf hra h
      simp only [List.get_eq_getElem] at this
      simp [this, he]
    · simp [hjk]

/-- Claim C1 (amended): in a session with a configured id column and a
positionally labelled annotation table, `ChooseLabel` at a position with no
prior entry for its record id appends exactly one row, carrying that record
id and the lowercased label (together with the current record's text and the
timestamp); at a position with a prior entry the row count is unchanged and
the matching row — keyed by its existing table position — is overwritten
with the same record id, the current record's text, the new lowercased label
and the new timestamp. -/
theorem C1_label_write_append_or_update (t : Tortus) (c desc : String)
    (now : Nat) (cur : SrcRow)
    (hid : t.id_column = some c)
    (hwf : t.annots.map AnnotRow.name = List.range t.annots.length)
    (hcur : ilocGet t.subset_df t.annot_index = Except.ok cur) :
    ilocGet t.create_record_id t.annot_index = Except.ok cur.idVal ∧
    ((t.annots.filter (fun r => r.entry.record_id == cur.idVal)).head? = none →
      t.label_or_skip_buttons_clicked desc false now = Except.ok
        { t with annots := t.annots ++
            [⟨t.annots.length, ⟨cur.idVal, cur.text, some (pyLower desc), now⟩⟩] } ∧
      (t.annots ++
        ([⟨t.annots.length, ⟨cur.idVal, cur.text, some (pyLower desc), now⟩⟩] :
          AnnotTable)).length = t.annots.length + 1) ∧
    (∀ ra, (t.annots.filter (fun r => r.entry.record_id == cur.idVal)).head? = some ra →
      ra.entry.record_id = cur.idVal ∧ ra.name < t.annots.length ∧
      t.label_or_skip_buttons_clicked desc false now = Except.ok
        { t with annots := t.annots.set ra.name ⟨ra.name,
            ⟨cur.idVal, cur.text, some (pyLower desc), now⟩⟩ } ∧
      (t.annots.set ra.name (⟨ra.name,
        ⟨cur.idVal, cur.text, some (pyLower desc), now⟩⟩ : AnnotRow)).length =
        t.annots.length) := by
  obtain ⟨hrid, hlook, hnone, hsome⟩ := write_spec t c desc false now cur hid hwf hcur
  refine ⟨hrid, fun h => ⟨hnone h, by simp⟩, fun ra h => ?_⟩
  obtain ⟨e1, e2, e3⟩ := hsome ra h
  exact ⟨e1, e2, e3, by simp⟩

/-- Witness for C1: at position 0 of a fresh one-record session the
`Positve` button appends the single expected row. -/
theorem C1_label_write_witness :
    w1.label_or_skip_buttons_clicked ("Positve") false 7 = Except.ok w1after := by
  have h := C1_label_write_append_or_update w1 ("id") ("Positve") 7 ⟨0, 3, ("t")⟩
    rfl rfl rfl
  exact (h.2.1 rfl).1

/-- Claim C1 counterexample: with a duplicated id value the id-keyed update
rewrites the matching row's text column as well — after labelling position 0
(text `a`) and then labelling position 1 (text `b`), the single row's text
has changed from `a` to `b`, so the update does not touch only `label` and
`annotated_at`. -/
theorem C1_cex_update_rewrites_text :
    c1s0.label_or_skip_full ("Positive") false 1 = Except.ok c1s1 ∧
    c1s1.annots = [⟨0, ⟨1, ("a"), some ("positive"), 1⟩⟩] ∧
    c1s1.label_or_skip_buttons_clicked ("Negative") false 2 = Except.ok c1s2 ∧
    c1s2.annots = [⟨0, ⟨1, ("b"), some ("negative"), 2⟩⟩] ∧
    c1s2.annots.length = c1s1.annots.length ∧
    c1s1.annots.map (fun r => r.entry.text) = [("a")] ∧
    c1s2.annots.map (fun r => r.entry.text) = [("b")] :=
  ⟨rfl, rfl, rfl, rfl, rfl, rfl, rfl⟩

/-- Claim C2: with random order off, construction succeeds and the working
subset is the first `num_records` eligible rows — the full source when the
prior table is empty, the not-yet-annotated rows outside edit mode, the
already-annotated rows in edit mode — in source order; its length is at
most the requested count, with equality whenever enough eligible rows
exist. -/
theorem C2_create_subset_spec (annots : AnnotTable) (df : List SrcRow)
    (edit_annots : Bool) (n : Nat) :
    create_subset_df annots df edit_annots false n =
      Except.ok ((specEligible annots df edit_annots).take n) ∧
    ((specEligible annots df edit_annots).take n).length =
      min n (specEligible annots df edit_annots).length ∧
    ((specEligible annots df edit_annots).take n).length ≤ n ∧
    (n ≤ (specEligible annots df edit_annots).length →
      ((specEligible annots df edit_annots).take n).length = n) ∧
    List.Sublist ((specEligible annots df edit_annots).take n) df ∧
    (annots.isEmpty = true → specEligible annots df edit_annots = df) ∧
    (annots.isEmpty = false → edit_annots = false →
      ∀ r ∈ specEligible annots df edit_annots,
        (annots.map (fun a => a.entry.text)).contains r.text = false) ∧
    (annots.isEmpty = false → edit_annots = true →
      ∀ r ∈ specEligible annots df edit_annots,
        (annots.map (fun a => a.entry.text)).contains r.text = true) := by
  refine ⟨rfl, List.length_take .., ?_, ?_, ?_, ?_, ?_, ?_⟩
  · simp [List.length_take]
  · intro hn
    simp [List.length_take]
    omega
  · refine List.Sublist.trans (List.take_sublist _ _) ?_
    unfold specEligible
    split
    · exact List.Sublist.refl df
    · split
      · exact List.filter_sublist df
      · exact List.filter_sublist df
  · intro he
    unfold specEligible
    simp [he]
  · intro he hed r hr
    unfold specEligible at hr
    rw [if_neg (by simp [he])] at hr
    rw [hed] at hr
    simp only [Bool.not_false, if_pos] at hr
    have := (List.mem_filter.mp hr).2
    simpa using this
  · intro he hed r hr
    unfold specEligible at hr
    rw [if_neg (by simp [he])] at hr
    rw [hed] at hr
    simp only [Bool.not_true] at hr
    rw [if_neg (by simp)] at hr
    exact (List.mem_filter.mp hr).2

/-- Witness for C2: a concrete three-row table with one row already
annotated yields exactly the two requested eligible rows. -/
theorem C2_create_subset_witness :
    create_subset_df c2annots c2df false false 2 =
      Except.ok ((specEligible c2annots c2df false).take 2) ∧
    ((specEligible c2annots c2df false).take 2).length = 2 :=
  ⟨(C2_create_subset_spec c2annots c2df false 2).1,
   (C2_create_subset_spec c2annots c2df false 2).2.2.2.1 (by decide)⟩

/-- Claim C3 (amended): in a session with a configured id column and a
positionally labelled annotation table, skip appends a null-labelled row
exactly when no prior entry exists for the current record id; when a prior
entry exists, the row count is unchanged, the matching row keeps its prior
label (the label column of the table is completely unchanged) and its
timestamp — and its text, rewritten to the current record's text — are
updated. -/
theorem C3_skip_write_behavior (t : Tortus) (c : String) (now : Nat)
    (cur : SrcRow)
    (hid : t.id_column = some c)
    (hwf : t.annots.map AnnotRow.name = List.range t.annots.length)
    (hcur : ilocGet t.subset_df t.annot_index = Except.ok cur) :
    ((t.annots.filter (fun r => r.entry.record_id == cur.idVal)).head? = none →
      t.label_or_skip_buttons_clicked ("Skip") true now = Except.ok
        { t with annots := t.annots ++
            [⟨t.annots.length, ⟨cur.idVal, cur.text, none, now⟩⟩] }) ∧
    (∀ ra, (t.annots.filter (fun r => r.entry.record_id == cur.idVal)).head? = some ra →
      ra.name < t.annots.length ∧
      t.label_or_skip_buttons_clicked ("Skip") true now = Except.ok
        { t with annots := t.annots.set ra.name ⟨ra.name,
            ⟨cur.idVal, cur.text, ra.entry.label, now⟩⟩ } ∧
      (t.annots.set ra.name ⟨ra.name,
        ⟨cur.idVal, cur.text, ra.entry.label, now⟩⟩).length = t.annots.length ∧
      (t.annots.set ra.name ⟨ra.name,
        ⟨cur.idVal, cur.text, ra.entry.label, now⟩⟩).map (fun r => r.entry.label) =
        t.annots.map (fun r => r.entry.label)) := by
  obtain ⟨hrid, hlook, hnone, hsome⟩ := write_spec t c ("Skip") true now cur hid hwf hcur
  refine ⟨fun h => hnone h, fun ra h => ?_⟩
  obtain ⟨e1, e2, e3⟩ := hsome ra h
  have hmem0 : ra ∈ t.annots.filter (fun r => r.entry.record_id == cur.idVal) :=
    List.mem_of_mem_head? (by simp [h])
  have hmem : ra ∈ t.annots := (List.mem_filter.mp hmem0).1
  refine ⟨e2, ?_, ?_, ?_⟩
  · exact e3
  · simp
  · exact set_same_label_map hwf hmem e2 _ rfl

/-- Witness for C3: skipping a record that already carries a `negative`
label keeps that label and only refreshes the timestamp (and text). -/
theorem C3_skip_write_witness :
    w3.label_or_skip_buttons_clicked ("Skip") true 9 = Except.ok
      { w3 with annots := [⟨0, ⟨4, ("u"), some ("negative"), 9⟩⟩] } := by
  have h := C3_skip_write_behavior w3 ("id") 9 ⟨0, 4, ("u")⟩ rfl rfl rfl
  exact (h.2 ⟨0, ⟨4, ("u"), some ("negative"), 2⟩⟩ rfl).2.1

/-- Claim C3 counterexample: skip over a prior entry does not update only
the timestamp — with a duplicated id the matched row's text is rewritten
(from `x` to `y`) by the skip, even though the prior label survives. -/
theorem C3_cex_skip_rewrites_text :
    c3s0.label_or_skip_full ("Negative") false 3 = Except.ok c3s1 ∧
    c3s1.annots = [⟨0, ⟨5, ("x"), some ("negative"), 3⟩⟩] ∧
    c3s1.label_or_skip_buttons_clicked ("Skip") true 4 = Except.ok c3s2 ∧
    c3s2.annots = [⟨0, ⟨5, ("y"), some ("negative"), 4⟩⟩] ∧
    c3s2.annots.length = c3s1.annots.length ∧
    c3s1.annots.map (fun r => r.entry.text) = [("x")] ∧
    c3s2.annots.map (fun r => r.entry.text) = [("y")] :=
  ⟨rfl, rfl, rfl, rfl, rfl, rfl, rfl⟩

/-- Claim C4 (amended): `Undo` immediately after an append-case write
restores the pre-write table exactly; in general it removes exactly the
last row of the table (so after an update-case write it removes the wrong
row and does not restore the pre-write content), it never moves the
position, and it is a no-op on an empty table. -/
theorem C4_undo_behavior (t : Tortus) (c : String) (cur : SrcRow)
    (hid : t.id_column = some c)
    (hwf : t.annots.map AnnotRow.name = List.range t.annots.length)
    (hcur : ilocGet t.subset_df t.annot_index = Except.ok cur) :
    ((t.annots.filter (fun r => r.entry.record_id == cur.idVal)).head? = none →
      ∀ desc skip now t2,
        t.label_or_skip_buttons_clicked desc skip now = Except.ok t2 →
        t2.redo_button_clicked.annots = t.annots) ∧
    (t.redo_button_clicked.annots = t.annots.dropLast ∧
     t.redo_button_clicked.annot_index = t.annot_index ∧
     t.redo_button_clicked.subset_df = t.subset_df) ∧
    (t.annots = [] → t.redo_button_clicked = t) := by
  refine ⟨?_, ⟨rfl, rfl, rfl⟩, ?_⟩
  · intro hn desc skip now t2 hw
    obtain ⟨hrid, hlook, hnone, hsome⟩ := write_spec t c desc skip now cur hid hwf hcur
    have hww := hnone hn
    have ht2 := Except.ok.inj ((hww.symm).trans hw)
    rw [← ht2]
    show (t.annots ++ [_]).dropLast = t.annots
    exact List.dropLast_concat ..
  · intro he
    obtain ⟨f1, f2, f3, f4, f5, f6, f7, f8, f9, f10, f11⟩ := t
    simp only at he
    subst he
    rfl

/-- Witness for C4: undo right after the append-case write of `w1` brings
the table back to its pre-write (empty) state. -/
theorem C4_undo_witness : w1after.redo_button_clicked.annots = w1.annots := by
  have h := C4_undo_behavior w1 ("id") ⟨0, 3, ("t")⟩ rfl rfl rfl
  exact h.1 rfl ("Positve") false 7 w1after rfl

/-- Claim C4 counterexample: after an update-case write (prior table of two
rows, the current record matching the first), undo removes the last row and
keeps the update, so the table is not restored to its pre-write row count
or content. -/
theorem C4_cex_undo_after_update :
    Tortus.init [⟨0, 1, ("a")⟩] 10 (some ("id"))
      (some [⟨0, ⟨1, ("a"), some ("positive"), 0⟩⟩,
             ⟨1, ⟨2, ("zz"), some ("negative"), 0⟩⟩])
      true false default_labels true = Except.ok c4s0 ∧
    c4s0.label_or_skip_buttons_clicked ("Neutral") false 9 = Except.ok c4s1 ∧
    c4s1.annots.length = c4s0.annots.length ∧
    c4s1.redo_button_clicked.annots = [⟨0, ⟨1, ("a"), some ("neutral"), 9⟩⟩] ∧
    c4s1.redo_button_clicked.annots ≠ c4s0.annots ∧
    c4s1.redo_button_clicked.annots.length = 1 ∧
    c4s0.annots.length = 2 :=
  ⟨rfl, rfl, rfl, rfl, by decide, rfl, rfl⟩

/-- Claim C5 (amended): `Advance(-1)` at position 0 is a no-op; whenever the
position is strictly before the last subset index, `Advance(delta)` moves
the position by `delta` and the session stays active; at the last position
(and on subsets with at most one record) any `Advance` ends the session,
showing `Complete` for `+1` and `Start` for `-1` — in particular `Prev` at
the last position ends the session instead of moving back. -/
theorem C5_move_behavior (t : Tortus) (delta : Int)
    (hd : delta = 1 ∨ delta = -1) :
    (delta = -1 → t.annot_index = 0 → t.move_clicked delta = t) ∧
    (¬(delta = -1 ∧ t.annot_index = 0) →
      t.annot_index < (t.subset_df.length : Int) - 1 →
      t.move_clicked delta = { t with annot_index := t.annot_index + delta }) ∧
    (¬(delta = -1 ∧ t.annot_index = 0) →
      ¬(t.annot_index < (t.subset_df.length : Int) - 1) →
      t.move_clicked delta =
        { t with doneMsg := some (if delta = 1 then ("Complete") else ("Start")) }) := by
  refine ⟨fun h1 h2 => ?_, fun hg hlt => ?_, fun hg hge => ?_⟩
  · unfold Tortus.move_clicked
    rw [if_pos ⟨h1, h2⟩]
  · unfold Tortus.move_clicked
    rw [if_neg hg, if_pos hlt]
  · unfold Tortus.move_clicked
    rw [if_neg hg, if_neg hge]

/-- Witness for C5: a forward move from position 0 of a two-record session
moves to position 1 and stays active. -/
theorem C5_move_witness :
    c5s0.move_clicked 1 = { c5s0 with annot_index := 1 } := by
  have h := C5_move_behavior c5s0 1 (Or.inl rfl)
  exact h.2.1 (by decide) (by decide)

/-- Claim C5 counterexample: `Prev` at the last position (index 1 of a
two-record subset) does not move back to position 0 — it ends the session,
tearing the inputs down with the `Start` caption, with the position still
at 1. -/
theorem C5_cex_prev_at_last :
    c5s0.move_clicked 1 = c5s1 ∧
    c5s1.annot_index = 1 ∧
    c5s1.move_clicked (-1) = { c5s1 with doneMsg := some ("Start") } ∧
    (c5s1.move_clicked (-1)).annot_index = 1 ∧
    (c5s1.move_clicked (-1)).doneMsg = some ("Start") :=
  ⟨rfl, rfl, rfl, rfl, rfl⟩


/-- Claim C6 (code bug): in the default configuration — no id column — the
prior-entry lookup does not fall back to row-index record ids the way
`create_record_id` does: it indexes both frames by the column label `None`
and raises KeyError, so `PriorEntryFor` fails for every position of every
default-configuration session; with a configured id column the same lookup
returns the first record-id match (here: none) as the claim states. -/
theorem C6_prior_entry_keyerror_default_config :
    Tortus.init [⟨0, 7, ("hello")⟩] 10 none none false false default_labels false =
      Except.ok t6 ∧
    t6.create_record_id = [0] ∧
    t6.get_annot_row_from_subset_iloc 0 = Except.error PdError.keyError ∧
    ({ t6 with id_column := some ("id") } : Tortus).get_annot_row_from_subset_iloc 0 =
      Except.ok none :=
  ⟨rfl, rfl, rfl, rfl⟩

/-- Claim C7 (amended): `Advance(+1)` at the final position tears the widget
down showing `Complete`, leaving position and table as they are; the code
defines no SessionClosedError and the write routine is not gated on
completion — invoked on the completed session it still writes the table
exactly as it would on the active one. -/
theorem C7_complete_transition (t : Tortus) (c desc : String) (skip : Bool)
    (now : Nat) (cur : SrcRow)
    (h1 : t.annot_index = (t.subset_df.length : Int) - 1)
    (hid : t.id_column = some c)
    (hwf : t.annots.map AnnotRow.name = List.range t.annots.length)
    (hcur : ilocGet t.subset_df t.annot_index = Except.ok cur) :
    t.move_clicked 1 = { t with doneMsg := some ("Complete") } ∧
    (t.move_clicked 1).annot_index = t.annot_index ∧
    (t.move_clicked 1).annots = t.annots ∧
    ((t.annots.filter (fun r => r.entry.record_id == cur.idVal)).head? = none →
      (t.move_clicked 1).label_or_skip_buttons_clicked desc skip now = Except.ok
        { t with
            doneMsg := some ("Complete"),
            annots := t.annots ++
              [⟨t.annots.length,
                ⟨cur.idVal, cur.text, (if skip then none else some (pyLower desc)),
                  now⟩⟩] }) := by
  have hmv : t.move_clicked 1 = { t with doneMsg := some ("Complete") } := by
    unfold Tortus.move_clicked
    rw [if_neg (by simp), if_neg (by omega)]
    simp
  refine ⟨hmv, by rw [hmv], by rw [hmv], fun hn => ?_⟩
  rw [hmv]
  have h2 := write_spec ({ t with doneMsg := some ("Complete") } : Tortus)
    c desc skip now cur hid hwf hcur
  exact h2.2.2.1 hn

/-- Witness for C7: completing a one-record session and then invoking the
write handler still appends the row. -/
theorem C7_complete_witness :
    c7s0.move_clicked 1 = { c7s0 with doneMsg := some ("Complete") } ∧
    ({ c7s0 with doneMsg := some ("Complete") } : Tortus).label_or_skip_buttons_clicked
      ("Positve") false 5 = Except.ok
      { c7s0 with
          doneMsg := some ("Complete"),
          annots := [⟨0, ⟨9, ("zz"), some ("positve"), 5⟩⟩] } := by
  have h := C7_complete_transition c7s0 ("id") ("Positve") false 5 ⟨0, 9, ("zz")⟩
    rfl rfl rfl rfl
  have h4 := h.2.2.2 rfl
  rw [h.1] at h4
  exact ⟨h.1, h4⟩

/-- Claim C7 counterexample: on the completed two-record session the write
handler raises nothing and the table grows by one row — no
SessionClosedError exists and the table does not stay unchanged. -/
theorem C7_cex_write_after_complete :
    c5s1.move_clicked 1 = { c5s1 with doneMsg := some ("Complete") } ∧
    ({ c5s1 with doneMsg := some ("Complete") } : Tortus).label_or_skip_buttons_clicked
      ("Neutral") false 6 = Except.ok
      { c5s1 with
          doneMsg := some ("Complete"),
          annots := [⟨0, ⟨2, ("q"), some ("neutral"), 6⟩⟩] } ∧
    ({ c5s1 with
          doneMsg := some ("Complete"),
          annots := [⟨0, ⟨2, ("q"), some ("neutral"), 6⟩⟩] } : Tortus).annots.length =
      c5s1.annots.length + 1 :=
  ⟨rfl, rfl, rfl⟩

/-- Claim C8 (amended): the recording routine performs no label validation —
for any button description whatsoever, member of the configured label set or
not, the write succeeds and records the lowercased description; out-of-set
labels cannot arise through the widget because `annotate` offers exactly one
label button per configured label (default `['Positve', 'Negative',
'Neutral']`, first entry misspelled as in the source). -/
theorem C8_write_records_any_description (t : Tortus) (c desc : String)
    (now : Nat) (cur : SrcRow)
    (hid : t.id_column = some c)
    (hwf : t.annots.map AnnotRow.name = List.range t.annots.length)
    (hcur : ilocGet t.subset_df t.annot_index = Except.ok cur)
    (hnone : (t.annots.filter (fun r => r.entry.record_id == cur.idVal)).head? = none) :
    t.offered_label_descriptions = t.labels ∧
    t.label_or_skip_buttons_clicked desc false now = Except.ok
      { t with annots := t.annots ++
          [⟨t.annots.length, ⟨cur.idVal, cur.text, some (pyLower desc), now⟩⟩] } := by
  obtain ⟨h1, h2, h3, h4⟩ := write_spec t c desc false now cur hid hwf hcur
  exact ⟨rfl, h3 hnone⟩

/-- Witness for C8: the arbitrary description `Maybe` — not a configured
label — is recorded lowercased without any error. -/
theorem C8_write_any_witness :
    w1.label_or_skip_buttons_clicked ("Maybe") false 4 = Except.ok
      { w1 with annots := [⟨0, ⟨3, ("t"), some ("maybe"), 4⟩⟩] } :=
  (C8_write_records_any_description w1 ("id") ("Maybe") 4 ⟨0, 3, ("t")⟩
    rfl rfl rfl rfl).2

/-- Claim C8 counterexample: `Bananas` is outside every configured label set
(lowercased it is not among the lowercased defaults), yet the write succeeds
and the table grows — no InvalidLabelError is signalled and the table does
not stay unchanged. -/
theorem C8_cex_no_label_validation :
    (default_labels.map pyLower).contains ("bananas") = false ∧
    c8s0.label_or_skip_buttons_clicked ("Bananas") false 4 = Except.ok
      { c8s0 with annots := [⟨0, ⟨2, ("w"), some ("bananas"), 4⟩⟩] } ∧
    ({ c8s0 with annots := [⟨0, ⟨2, ("w"), some ("bananas"), 4⟩⟩] } : Tortus).annots.length =
      c8s0.annots.length + 1 :=
  ⟨rfl, rfl, rfl⟩

/-- Claim C9 (amended): when random order is in effect (requested and not in
edit mode, which forces it off) and the requested count exceeds the number
of eligible rows, construction fails — but with the sampling primitive's raw
ValueError from `DataFrame.sample`; the source validates nothing itself and
never raises the spec's ConfigError. -/
theorem C9_random_overcount_fails (annots : AnnotTable) (df : List SrcRow)
    (n : Nat) (idc : Option String) (lbls : List String) (dc : Bool)
    (h : (specEligible annots df false).length < n) :
    Tortus.init df n idc (some annots) false true lbls dc =
      Except.error PdError.valueError := by
  have hc : create_subset_df annots df false true n =
      Except.error PdError.valueError := by
    show (if n ≤ (specEligible annots df false).length then
        Except.ok ((specEligible annots df false).take n)
      else Except.error PdError.valueError) = Except.error PdError.valueError
    rw [if_neg (by omega)]
  simp [Tortus.init, hc]

/-- Witness for C9: requesting five random records from a single-row table
with an empty prior table fails with the raw ValueError. -/
theorem C9_random_overcount_witness :
    Tortus.init [⟨0, 1, ("p")⟩] 5 none (some []) false true default_labels false =
      Except.error PdError.valueError :=
  C9_random_overcount_fails [] [⟨0, 1, ("p")⟩] 5 none default_labels false (by decide)

/-- Claim C9 counterexample: the failure is the sampling primitive's
ValueError, not the validated ConfigError the claim names. -/
theorem C9_cex_sample_valueerror :
    Tortus.init [⟨0, 1, ("p")⟩] 5 none none false true default_labels false =
      Except.error PdError.valueError ∧
    PdError.valueError ≠ PdError.configError :=
  ⟨rfl, by decide⟩

/-- Claim C10 (amended): every constructible session starts at position 0;
when the working subset is nonempty, every event sequence keeps the position
within [0, len-1] and never changes the subset; when the working subset is
empty the position 0 lies outside the empty range [0, -1] and stays 0
forever. -/
theorem C10_position_invariant (df : List SrcRow) (n : Nat)
    (idc : Option String) (a0 : Option AnnotTable) (ed rd dc : Bool)
    (lbls : List String) (t0 : Tortus)
    (h0 : Tortus.init df n idc a0 ed rd lbls dc = Except.ok t0) :
    t0.annot_index = 0 ∧
    ∀ evs t2, t0.steps evs = Except.ok t2 →
      t2.subset_df = t0.subset_df ∧
      (t0.subset_df ≠ [] →
        0 ≤ t2.annot_index ∧ t2.annot_index ≤ (t0.subset_df.length : Int) - 1) ∧
      (t0.subset_df = [] → t2.annot_index = 0) := by
  obtain ⟨hz, hinv⟩ := init_posInv df n idc a0 ed rd dc lbls t0 h0
  refine ⟨hz, fun evs t2 h2 => ?_⟩
  obtain ⟨hsub, hne, hemp⟩ := steps_posInv t0.subset_df evs t0 hinv t2 h2
  refine ⟨hsub, fun hne2 => ?_, hemp⟩
  obtain ⟨ha, hb⟩ := hne hne2
  exact ⟨ha, by omega⟩

/-- Witness for C10: the freshly built three-record session satisfies the
position bounds. -/
theorem C10_position_invariant_witness :
    0 ≤ c10t.annot_index ∧
    c10t.annot_index ≤ (c10t.subset_df.length : Int) - 1 := by
  have h := C10_position_invariant c10df 3 none none false false false
    default_labels c10t rfl
  exact (h.2 [] c10t rfl).2.1 (by decide)

/-- Claim C10 counterexample: the session whose working subset is empty is
constructible, and its position 0 is not within [0, len-1] = [0, -1]. -/
theorem C10_cex_empty_subset :
    Tortus.init [] 10 none none false false default_labels false =
      Except.ok c10empty ∧
    c10empty.annot_index = 0 ∧
    ¬(c10empty.annot_index ≤ (c10empty.subset_df.length : Int) - 1) :=
  ⟨rfl, rfl, by decide⟩
